import Mathlib

/-!
Verification development for the `ref-portals` crate.

The crate provides anchors (owning handles over a scope-bound reference)
and portals (reference-counted non-owning handles) in three flavours:

* `src/lib.rs` — an older, `Option`-based slot design (`Arc<RwLock<Option<_>>>`);
* `src/sync.rs` — threadsafe anchors (`Arc` + `RwLock`/`Mutex`, retirement via
  `Arc::try_unwrap`);
* `src/rc.rs` — single-threaded anchors (`Rc` + `RefCell` with an explicit
  `poisoned` flag, and a deliberate self-deadlock as last-resort measure).

The embedding models each family's shared slot as an explicit state record:
the number of outstanding strong portals, whether the anchor is still live,
lock/poison/borrow bookkeeping, and the captured pointer as an address into an
explicit heap function `Nat → α`.  Panicking operations return an `Outcome`
carrying the panic message (the message constants of `src/lib.rs`); waiting on
a lock held elsewhere is `Outcome.blocked`, and the crate's intentional
`Mutex`-self-deadlock is `Outcome.deadlock`.
-/

/-- The `ANCHOR_STILL_IN_USE` panic message constant of `src/lib.rs`. -/
def ANCHOR_STILL_IN_USE : String := "Anchor still in use"

/-- The `ANCHOR_POISONED` panic message constant of `src/lib.rs`. -/
def ANCHOR_POISONED : String := "Anchor poisoned"

/-- The `ANCHOR_DROPPED` panic message constant of `src/lib.rs`. -/
def ANCHOR_DROPPED : String := "Anchor dropped"

/-- The message of the panic raised by `RefCell::borrow` when a mutable
borrow is active. -/
def ALREADY_MUTABLY_BORROWED : String := "already mutably borrowed: BorrowError"

/-- The message of the panic raised by `RefCell::borrow_mut` when any
borrow is active. -/
def ALREADY_BORROWED : String := "already borrowed: BorrowMutError"

/-- Result of running one operation of the protocol: normal return with the
new shared state, a panic carrying its message and the state left behind,
waiting on a lock currently held elsewhere (`blocked`), or the crate's
deliberate, permanent self-deadlock (`deadlock`). -/
inductive Outcome (σ : Type) where
  | ok : σ → Outcome σ
  | panicked : String → σ → Outcome σ
  | blocked : Outcome σ
  | deadlock : Outcome σ
deriving DecidableEq

/-- Whether an outcome is a normal return. -/
def Outcome.isOk {σ : Type} : Outcome σ → Bool
  | .ok _ => true
  | _ => false

/-- Result of dereferencing a guard: the value read, or a panic. -/
inductive DerefRes (α : Type) where
  | val : α → DerefRes α
  | panicked : String → DerefRes α
deriving DecidableEq

/-! ## `sync::Anchor` / `sync::Portal` / `sync::WeakPortal`

The threadsafe read-only family: the slot is `Arc<SSNonNull<T>>`, strong
references are the anchor's own (while it is live) plus one per `Portal`.
Retirement is `Arc::try_unwrap`, which succeeds exactly when no other strong
reference exists. -/

/-- State of the slot shared by a `sync::Anchor` and its `sync::Portal`s:
the captured address, the number of strong portals, and whether the anchor
itself still holds its strong reference. -/
structure SyncROState where
  addr : Nat
  portals : Nat
  anchorLive : Bool
deriving DecidableEq

/-- Strong reference count of the `Arc` backing a `sync::Anchor`'s slot. -/
def syncROStrong (s : SyncROState) : Nat :=
  s.portals + (if s.anchorLive then 1 else 0)

/-- The slot is gone (deallocated) once no strong reference remains; in this
crate that is reached through the anchor's retirement protocol. -/
def syncRORetired (s : SyncROState) : Prop := syncROStrong s = 0

instance (s : SyncROState) : Decidable (syncRORetired s) := by
  unfold syncRORetired; infer_instance

/-- `sync::Anchor::new`: a fresh slot over address `a`, strong count 1. -/
def syncAnchorNew (a : Nat) : SyncROState := ⟨a, 0, true⟩

/-- `sync::Anchor::portal` / `sync::Portal::clone`: mint one more strong
portal sharing the slot. -/
def syncAnchorPortal (s : SyncROState) : SyncROState :=
  { s with portals := s.portals + 1 }

/-- Dropping one `sync::Portal`: release one strong reference. -/
def syncPortalDropOne (s : SyncROState) : SyncROState :=
  { s with portals := s.portals - 1 }

/-- `<sync::Portal as Deref>::deref`: read the heap through the stored
pointer.  The source dereferences the stored `NonNull` directly, with no
checks and no copy. -/
def syncPortalDeref {α : Type} (h : Nat → α) (s : SyncROState) : α := h s.addr

/-- `<sync::Anchor as Drop>::drop`: `Arc::try_unwrap`, panicking with
`ANCHOR_STILL_IN_USE` when another strong reference (a portal) exists.
Either way the anchor's own strong reference is released. -/
def syncAnchorDrop (s : SyncROState) : Outcome SyncROState :=
  if s.portals = 0 then .ok { s with anchorLive := false }
  else .panicked ANCHOR_STILL_IN_USE { s with anchorLive := false }

/-- `sync::WeakPortal::try_upgrade`: `Weak::upgrade` succeeds exactly when a
strong reference still exists, minting a new strong portal. -/
def syncWeakTryUpgrade (s : SyncROState) : Option SyncROState :=
  if syncROStrong s = 0 then none else some { s with portals := s.portals + 1 }

/-- `sync::WeakPortal::upgrade`: `try_upgrade().expect(ANCHOR_DROPPED)`. -/
def syncWeakUpgrade (s : SyncROState) : Outcome SyncROState :=
  match syncWeakTryUpgrade s with
  | some t => .ok t
  | none => .panicked ANCHOR_DROPPED s

/-! ## `sync::RwAnchor` / `sync::RwPortal` / `sync::WeakRwPortal`

The threadsafe shared-read / exclusive-write family: the slot is
`Arc<RwLock<SSNonNull<T>>>`.  Retirement is `Arc::try_unwrap`; on failure the
destructor takes the write lock (blocking if a guard is held), then panics
while holding it, which poisons the `RwLock` during unwinding.  On success,
`RwLock::into_inner` reports a previously poisoned lock, upon which the
destructor panics with `ANCHOR_POISONED`. -/

/-- State of the slot shared by a `sync::RwAnchor` and its `sync::RwPortal`s:
captured address, strong portal count, anchor liveness, the `RwLock`'s poison
flag, and the read/write guards currently held. -/
structure SyncRwState where
  addr : Nat
  portals : Nat
  anchorLive : Bool
  lockPoisoned : Bool
  readLocks : Nat
  writeLocked : Bool
deriving DecidableEq

/-- Strong reference count of the `Arc` backing a `sync::RwAnchor`'s slot. -/
def syncRwStrong (s : SyncRwState) : Nat :=
  s.portals + (if s.anchorLive then 1 else 0)

/-- The slot is gone once no strong reference remains. -/
def syncRwRetired (s : SyncRwState) : Prop := syncRwStrong s = 0

instance (s : SyncRwState) : Decidable (syncRwRetired s) := by
  unfold syncRwRetired; infer_instance

/-- `sync::RwAnchor::new`: fresh unpoisoned, unlocked slot over address `a`. -/
def syncRwAnchorNew (a : Nat) : SyncRwState := ⟨a, 0, true, false, 0, false⟩

/-- `sync::RwAnchor::portal` / `sync::RwPortal::clone`. -/
def syncRwAnchorPortal (s : SyncRwState) : SyncRwState :=
  { s with portals := s.portals + 1 }

/-- Dropping one `sync::RwPortal`. -/
def syncRwPortalDropOne (s : SyncRwState) : SyncRwState :=
  { s with portals := s.portals - 1 }

/-- Replace the `RwLock` poison flag (used to state that upgrading a weak
portal is insensitive to poisoning). -/
def syncRwSetPoison (b : Bool) (s : SyncRwState) : SyncRwState :=
  { s with lockPoisoned := b }

/-- `<sync::RwAnchor as Drop>::drop`: `Arc::try_unwrap`; if other strong
references exist, take the write lock (waiting while any guard is held) and
panic `ANCHOR_STILL_IN_USE` while holding it, poisoning the lock; if uniquely
owned, `into_inner` panics `ANCHOR_POISONED` on a poisoned lock, otherwise the
slot is released normally. -/
def syncRwAnchorDrop (s : SyncRwState) : Outcome SyncRwState :=
  if s.portals = 0 then
    if s.lockPoisoned then .panicked ANCHOR_POISONED { s with anchorLive := false }
    else .ok { s with anchorLive := false }
  else
    if s.readLocks ≠ 0 ∨ s.writeLocked then .blocked
    else .panicked ANCHOR_STILL_IN_USE
      { s with anchorLive := false, lockPoisoned := true }

/-- `sync::RwPortal::read`: `RwLock::read` waits while a writer holds the
lock, then `.expect(ANCHOR_POISONED)` panics on a poisoned lock; otherwise a
read guard is issued. -/
def syncRwPortalRead (s : SyncRwState) : Outcome SyncRwState :=
  if s.writeLocked then .blocked
  else if s.lockPoisoned then .panicked ANCHOR_POISONED s
  else .ok { s with readLocks := s.readLocks + 1 }

/-- `sync::RwPortal::write`: `RwLock::write` waits while any guard is held,
then `.expect(ANCHOR_POISONED)` panics on a poisoned lock; otherwise the
write guard is issued. -/
def syncRwPortalWrite (s : SyncRwState) : Outcome SyncRwState :=
  if s.writeLocked ∨ s.readLocks ≠ 0 then .blocked
  else if s.lockPoisoned then .panicked ANCHOR_POISONED s
  else .ok { s with writeLocked := true }

/-- `<PortalReadGuard as Deref>::deref` (also the write guard's `deref` /
`deref_mut`): read the heap through the stored pointer, no checks, no copy. -/
def syncRwGuardDeref {α : Type} (h : Nat → α) (s : SyncRwState) : α := h s.addr

/-- Releasing a read guard: plain unlock; read guards never poison. -/
def syncRwReleaseRead (s : SyncRwState) : SyncRwState :=
  { s with readLocks := s.readLocks - 1 }

/-- Releasing the write guard; `panicking` tells whether the holder's code is
unwinding from a failure at that moment, in which case the standard library's
`RwLock` marks itself poisoned before the unwind continues. -/
def syncRwReleaseWrite (panicking : Bool) (s : SyncRwState) : SyncRwState :=
  { s with writeLocked := false, lockPoisoned := s.lockPoisoned || panicking }

/-- `sync::WeakRwPortal::try_upgrade`. -/
def syncRwWeakTryUpgrade (s : SyncRwState) : Option SyncRwState :=
  if syncRwStrong s = 0 then none else some { s with portals := s.portals + 1 }

/-- `sync::WeakRwPortal::upgrade`: `try_upgrade().expect(ANCHOR_DROPPED)`. -/
def syncRwWeakUpgrade (s : SyncRwState) : Outcome SyncRwState :=
  match syncRwWeakTryUpgrade s with
  | some t => .ok t
  | none => .panicked ANCHOR_DROPPED s

/-! ## `sync::WAnchor` / `sync::WPortal` / `sync::WeakWPortal`

The threadsafe exclusive-only family: the slot is `Arc<Mutex<SSNonNull<T>>>`.
Same retirement protocol as `RwAnchor`, with the mutex in place of the
read-write lock. -/

/-- State of the slot shared by a `sync::WAnchor` and its `sync::WPortal`s. -/
structure SyncWState where
  addr : Nat
  portals : Nat
  anchorLive : Bool
  lockPoisoned : Bool
  locked : Bool
deriving DecidableEq

/-- Strong reference count of the `Arc` backing a `sync::WAnchor`'s slot. -/
def syncWStrong (s : SyncWState) : Nat :=
  s.portals + (if s.anchorLive then 1 else 0)

/-- The slot is gone once no strong reference remains. -/
def syncWRetired (s : SyncWState) : Prop := syncWStrong s = 0

instance (s : SyncWState) : Decidable (syncWRetired s) := by
  unfold syncWRetired; infer_instance

/-- `sync::WAnchor::new`. -/
def syncWAnchorNew (a : Nat) : SyncWState := ⟨a, 0, true, false, false⟩

/-- `sync::WAnchor::portal` / `sync::WPortal::clone`. -/
def syncWAnchorPortal (s : SyncWState) : SyncWState :=
  { s with portals := s.portals + 1 }

/-- Dropping one `sync::WPortal`. -/
def syncWPortalDropOne (s : SyncWState) : SyncWState :=
  { s with portals := s.portals - 1 }

/-- Replace the `Mutex` poison flag. -/
def syncWSetPoison (b : Bool) (s : SyncWState) : SyncWState :=
  { s with lockPoisoned := b }

/-- `<sync::WAnchor as Drop>::drop`: `Arc::try_unwrap`; on failure, lock the
mutex (waiting while a guard is held) and panic `ANCHOR_STILL_IN_USE` while
holding it, poisoning the mutex; if uniquely owned, `into_inner` panics
`ANCHOR_POISONED` on a poisoned mutex, otherwise the slot is released. -/
def syncWAnchorDrop (s : SyncWState) : Outcome SyncWState :=
  if s.portals = 0 then
    if s.lockPoisoned then .panicked ANCHOR_POISONED { s with anchorLive := false }
    else .ok { s with anchorLive := false }
  else
    if s.locked then .blocked
    else .panicked ANCHOR_STILL_IN_USE
      { s with anchorLive := false, lockPoisoned := true }

/-- `sync::WPortal::lock`: `Mutex::lock` waits while the guard is held, then
`.expect(ANCHOR_POISONED)` panics on a poisoned mutex; otherwise the
exclusive guard is issued. -/
def syncWPortalLock (s : SyncWState) : Outcome SyncWState :=
  if s.locked then .blocked
  else if s.lockPoisoned then .panicked ANCHOR_POISONED s
  else .ok { s with locked := true }

/-- `<PortalMutexGuard as Deref>::deref` / `deref_mut`. -/
def syncWGuardDeref {α : Type} (h : Nat → α) (s : SyncWState) : α := h s.addr

/-- Releasing the mutex guard; a release during unwinding poisons the mutex
(standard library behaviour). -/
def syncWReleaseLock (panicking : Bool) (s : SyncWState) : SyncWState :=
  { s with locked := false, lockPoisoned := s.lockPoisoned || panicking }

/-- `sync::WeakWPortal::try_upgrade`. -/
def syncWWeakTryUpgrade (s : SyncWState) : Option SyncWState :=
  if syncWStrong s = 0 then none else some { s with portals := s.portals + 1 }

/-- `sync::WeakWPortal::upgrade`: `try_upgrade().expect(ANCHOR_DROPPED)`. -/
def syncWWeakUpgrade (s : SyncWState) : Outcome SyncWState :=
  match syncWWeakTryUpgrade s with
  | some t => .ok t
  | none => .panicked ANCHOR_DROPPED s

/-! ## `rc::Anchor` / `rc::Portal` / `rc::WeakPortal`

The single-threaded read-only family: the slot is `Rc<NonNull<T>>`.
`rc::Portal` dereferences the pointer directly, so every portal is a
permanently active borrow; if retirement observes any outstanding portal it
deliberately deadlocks (locking a fresh `Mutex` twice on the same thread) to
prevent undefined behaviour, because a reference obtained through a portal
could have been sent to another thread. -/

/-- State of the slot shared by an `rc::Anchor` and its `rc::Portal`s. -/
structure RcROState where
  addr : Nat
  portals : Nat
  anchorLive : Bool
deriving DecidableEq

/-- Strong reference count of the `Rc` backing an `rc::Anchor`'s slot. -/
def rcROStrong (s : RcROState) : Nat :=
  s.portals + (if s.anchorLive then 1 else 0)

/-- The slot is gone once no strong reference remains. -/
def rcRORetired (s : RcROState) : Prop := rcROStrong s = 0

instance (s : RcROState) : Decidable (rcRORetired s) := by
  unfold rcRORetired; infer_instance

/-- `rc::Anchor::new`. -/
def rcAnchorNew (a : Nat) : RcROState := ⟨a, 0, true⟩

/-- `rc::Anchor::portal` / `rc::Portal::clone`. -/
def rcAnchorPortal (s : RcROState) : RcROState :=
  { s with portals := s.portals + 1 }

/-- Dropping one `rc::Portal`. -/
def rcPortalDropOne (s : RcROState) : RcROState :=
  { s with portals := s.portals - 1 }

/-- `<rc::Portal as Deref>::deref`: direct pointer dereference. -/
def rcPortalDeref {α : Type} (h : Nat → α) (s : RcROState) : α := h s.addr

/-- `<rc::Anchor as Drop>::drop`: `Rc::try_unwrap`; if any portal still
exists the destructor locks a fresh mutex twice on the same thread,
deadlocking permanently instead of risking a dangling dereference. -/
def rcAnchorDrop (s : RcROState) : Outcome RcROState :=
  if s.portals = 0 then .ok { s with anchorLive := false }
  else .deadlock

/-- `rc::WeakPortal::try_upgrade`. -/
def rcWeakTryUpgrade (s : RcROState) : Option RcROState :=
  if rcROStrong s = 0 then none else some { s with portals := s.portals + 1 }

/-- `rc::WeakPortal::upgrade`: `try_upgrade().expect(ANCHOR_DROPPED)`. -/
def rcWeakUpgrade (s : RcROState) : Outcome RcROState :=
  match rcWeakTryUpgrade s with
  | some t => .ok t
  | none => .panicked ANCHOR_DROPPED s

/-! ## `rc::RwAnchor` / `rc::RwPortal` / `rc::WeakRwPortal`

The single-threaded mutable family: the slot is
`Rc<RefCell<Poisonable<NonNull<T>>>>`, where `Poisonable` carries an explicit
`poisoned: bool`.  Borrow conflicts are detected at run time by the
`RefCell`; retirement deadlocks only when a borrow is live at that moment
(`try_borrow_mut` fails), and otherwise poisons the slot and panics
`ANCHOR_STILL_IN_USE` when portals remain. -/

/-- State of the slot shared by an `rc::RwAnchor` and its `rc::RwPortal`s:
captured address, strong portal count, anchor liveness, the explicit
`Poisonable::poisoned` flag, and the `RefCell`'s outstanding borrows. -/
structure RcRwState where
  addr : Nat
  portals : Nat
  anchorLive : Bool
  poisoned : Bool
  sharedBorrows : Nat
  mutBorrow : Bool
deriving DecidableEq

/-- Strong reference count of the `Rc` backing an `rc::RwAnchor`'s slot. -/
def rcRwStrong (s : RcRwState) : Nat :=
  s.portals + (if s.anchorLive then 1 else 0)

/-- The slot is gone once no strong reference remains. -/
def rcRwRetired (s : RcRwState) : Prop := rcRwStrong s = 0

instance (s : RcRwState) : Decidable (rcRwRetired s) := by
  unfold rcRwRetired; infer_instance

/-- `rc::RwAnchor::new`: fresh slot, not poisoned, no borrows. -/
def rcRwAnchorNew (a : Nat) : RcRwState := ⟨a, 0, true, false, 0, false⟩

/-- `rc::RwAnchor::portal` / `rc::RwPortal::clone`. -/
def rcRwAnchorPortal (s : RcRwState) : RcRwState :=
  { s with portals := s.portals + 1 }

/-- Dropping one `rc::RwPortal`. -/
def rcRwPortalDropOne (s : RcRwState) : RcRwState :=
  { s with portals := s.portals - 1 }

/-- Replace the `Poisonable::poisoned` flag. -/
def rcRwSetPoison (b : Bool) (s : RcRwState) : RcRwState :=
  { s with poisoned := b }

/-- `<rc::RwAnchor as Drop>::drop`: `Rc::try_unwrap`; if portals remain,
`try_borrow_mut` — when a borrow is live at that moment the destructor
deadlocks permanently, otherwise it sets `poisoned` and panics
`ANCHOR_STILL_IN_USE`.  If uniquely owned, `into_inner` and a check of the
`poisoned` flag: panic `ANCHOR_POISONED` if set, normal return otherwise. -/
def rcRwAnchorDrop (s : RcRwState) : Outcome RcRwState :=
  if s.portals = 0 then
    if s.poisoned then .panicked ANCHOR_POISONED { s with anchorLive := false }
    else .ok { s with anchorLive := false }
  else
    if s.sharedBorrows ≠ 0 ∨ s.mutBorrow then .deadlock
    else .panicked ANCHOR_STILL_IN_USE
      { s with anchorLive := false, poisoned := true }

/-- `rc::RwPortal::borrow`: `RefCell::borrow` panics if a mutable borrow is
active; then the guard's `poisoned` flag is checked and `ANCHOR_POISONED` is
raised if set (the fresh borrow is released by the unwind); otherwise a
shared guard is issued. -/
def rcRwPortalBorrow (s : RcRwState) : Outcome RcRwState :=
  if s.mutBorrow then .panicked ALREADY_MUTABLY_BORROWED s
  else if s.poisoned then .panicked ANCHOR_POISONED s
  else .ok { s with sharedBorrows := s.sharedBorrows + 1 }

/-- `rc::RwPortal::borrow_mut`: `RefCell::borrow_mut` panics if any borrow is
active; then the `poisoned` flag is checked and `ANCHOR_POISONED` raised if
set; otherwise the exclusive guard is issued. -/
def rcRwPortalBorrowMut (s : RcRwState) : Outcome RcRwState :=
  if s.mutBorrow ∨ s.sharedBorrows ≠ 0 then .panicked ALREADY_BORROWED s
  else if s.poisoned then .panicked ANCHOR_POISONED s
  else .ok { s with mutBorrow := true }

/-- `<PortalRef as Deref>::deref` / `<PortalRefMut as Deref>::deref`: read the
heap through the stored pointer. -/
def rcRwGuardDeref {α : Type} (h : Nat → α) (s : RcRwState) : α := h s.addr

/-- Releasing a shared guard (`PortalRef`): plain borrow release, never
poisons. -/
def rcRwReleaseBorrow (s : RcRwState) : RcRwState :=
  { s with sharedBorrows := s.sharedBorrows - 1 }

/-- `<PortalRefMut as Drop>::drop`: releases the exclusive borrow and, iff
`thread::panicking()` — the holder's code is unwinding from a failure — sets
the `poisoned` flag before the unwind continues. -/
def rcRwReleaseBorrowMut (panicking : Bool) (s : RcRwState) : RcRwState :=
  { s with mutBorrow := false, poisoned := s.poisoned || panicking }

/-- `rc::WeakRwPortal::try_upgrade`. -/
def rcRwWeakTryUpgrade (s : RcRwState) : Option RcRwState :=
  if rcRwStrong s = 0 then none else some { s with portals := s.portals + 1 }

/-- `rc::WeakRwPortal::upgrade`: `try_upgrade().expect(ANCHOR_DROPPED)`. -/
def rcRwWeakUpgrade (s : RcRwState) : Outcome RcRwState :=
  match rcRwWeakTryUpgrade s with
  | some t => .ok t
  | none => .panicked ANCHOR_DROPPED s

/-! ## Old `lib.rs` `Anchor` / `Portal`

The older design in `src/lib.rs`: the slot is `Arc<RwLock<Option<SSNonNull>>>`
and retirement `take()`s the contents, leaving `None` (Absent) behind.  The
destructor uses `try_write`, which fails (`WouldBlock`, reported as
`ANCHOR_STILL_IN_USE`) exactly when a read guard is held; a guard dereferenced
after the contents were taken panics `ANCHOR_DROPPED`. -/

/-- State of the slot of the old `lib.rs` read-only `Anchor`: captured
address, whether contents are still present, and the read guards held. -/
structure LibROState where
  addr : Nat
  present : Bool
  readLocks : Nat
deriving DecidableEq

/-- `lib.rs` `Anchor::new`. -/
def libAnchorNew (a : Nat) : LibROState := ⟨a, true, 0⟩

/-- `<lib.rs Anchor as Drop>::drop`: `try_write` fails with
`ANCHOR_STILL_IN_USE` while a read guard is held; otherwise
`take().unwrap()` empties the slot (panicking on an already-empty slot). -/
def libAnchorDrop (s : LibROState) : Outcome LibROState :=
  if s.readLocks ≠ 0 then .panicked ANCHOR_STILL_IN_USE s
  else if s.present then .ok { s with present := false }
  else .panicked "called Option::unwrap on a None value" s

/-- `lib.rs` `Portal::read`: acquires a read guard (the read-only anchor
never poisons its lock and no write guards exist). -/
def libPortalRead (s : LibROState) : Outcome LibROState :=
  .ok { s with readLocks := s.readLocks + 1 }

/-- `<lib.rs PortalReadGuard as Deref>::deref`: `as_ref().expect(ANCHOR_DROPPED)`
then a pointer dereference — panics once the slot contents were taken. -/
def libGuardDeref {α : Type} (h : Nat → α) (s : LibROState) : DerefRes α :=
  if s.present then .val (h s.addr) else .panicked ANCHOR_DROPPED

/-! ## Claims -/

/-- C1: For every anchor variant (threaded `Anchor`/`RwAnchor`/`WAnchor` and
cooperative `Anchor`/`RwAnchor`), if at least one strong portal to the slot
still exists when the anchor's destructor runs, retirement never completes:
the drop either panics `ANCHOR_STILL_IN_USE`, waits on a held guard, or
deadlocks permanently — in no case does it return normally. -/
theorem c1_retirement_never_completes_with_strong_portal
    (s1 : SyncROState) (s2 : SyncRwState) (s3 : SyncWState)
    (s4 : RcROState) (s5 : RcRwState) :
    (1 ≤ s1.portals → (syncAnchorDrop s1).isOk = false ∧
      syncAnchorDrop s1 = .panicked ANCHOR_STILL_IN_USE { s1 with anchorLive := false }) ∧
    (1 ≤ s2.portals → (syncRwAnchorDrop s2).isOk = false ∧
      (syncRwAnchorDrop s2 = .blocked ∨
        syncRwAnchorDrop s2 = .panicked ANCHOR_STILL_IN_USE
          { s2 with anchorLive := false, lockPoisoned := true })) ∧
    (1 ≤ s3.portals → (syncWAnchorDrop s3).isOk = false ∧
      (syncWAnchorDrop s3 = .blocked ∨
        syncWAnchorDrop s3 = .panicked ANCHOR_STILL_IN_USE
          { s3 with anchorLive := false, lockPoisoned := true })) ∧
    (1 ≤ s4.portals → (rcAnchorDrop s4).isOk = false ∧
      rcAnchorDrop s4 = .deadlock) ∧
    (1 ≤ s5.portals → (rcRwAnchorDrop s5).isOk = false ∧
      (rcRwAnchorDrop s5 = .deadlock ∨
        rcRwAnchorDrop s5 = .panicked ANCHOR_STILL_IN_USE
          { s5 with anchorLive := false, poisoned := true })) := by
  refine ⟨fun h1 => ?_, fun h2 => ?_, fun h3 => ?_, fun h4 => ?_, fun h5 => ?_⟩
  · have : ¬ s1.portals = 0 := by omega
    simp [syncAnchorDrop, this, Outcome.isOk]
  · have hp : ¬ s2.portals = 0 := by omega
    by_cases hg : s2.readLocks ≠ 0 ∨ s2.writeLocked <;>
      simp [syncRwAnchorDrop, hp, hg, Outcome.isOk]
  · have hp : ¬ s3.portals = 0 := by omega
    by_cases hg : s3.locked <;>
      simp [syncWAnchorDrop, hp, hg, Outcome.isOk]
  · have : ¬ s4.portals = 0 := by omega
    simp [rcAnchorDrop, this, Outcome.isOk]
  · have hp : ¬ s5.portals = 0 := by omega
    by_cases hg : s5.sharedBorrows ≠ 0 ∨ s5.mutBorrow <;>
      simp [rcRwAnchorDrop, hp, hg, Outcome.isOk]

/-- Witness for C1 at concrete states: one outstanding portal in each of the
five variants; no drop returns normally. -/
theorem c1_retirement_never_completes_with_strong_portal_witness :
    (syncAnchorDrop ⟨0, 1, true⟩).isOk = false ∧
    (syncRwAnchorDrop ⟨0, 1, true, false, 0, false⟩).isOk = false ∧
    (syncWAnchorDrop ⟨0, 1, true, false, false⟩).isOk = false ∧
    (rcAnchorDrop ⟨0, 1, true⟩).isOk = false ∧
    (rcRwAnchorDrop ⟨0, 1, true, false, 0, false⟩).isOk = false := by
  have h := c1_retirement_never_completes_with_strong_portal
    ⟨0, 1, true⟩ ⟨0, 1, true, false, 0, false⟩ ⟨0, 1, true, false, false⟩
    ⟨0, 1, true⟩ ⟨0, 1, true, false, 0, false⟩
  exact ⟨(h.1 (by decide)).1, (h.2.1 (by decide)).1, (h.2.2.1 (by decide)).1,
    (h.2.2.2.1 (by decide)).1, (h.2.2.2.2 (by decide)).1⟩

/-- C2: For an anchor created over the value at address `a`, dereferencing a
strong portal minted from it (directly, or a read guard acquired through it)
before retirement reads the heap through exactly the captured address — the
same object in identity, with no copy: whatever the heap currently holds at
`a` is what the dereference yields. -/
theorem c2_portal_deref_reads_captured_value {α : Type} (h : Nat → α) (a : Nat) :
    (syncAnchorNew a).addr = a ∧
    syncPortalDeref h (syncAnchorPortal (syncAnchorNew a)) = h a ∧
    rcPortalDeref h (rcAnchorPortal (rcAnchorNew a)) = h a ∧
    syncRwPortalRead (syncRwAnchorPortal (syncRwAnchorNew a)) =
      .ok { addr := a, portals := 1, anchorLive := true, lockPoisoned := false,
            readLocks := 1, writeLocked := false } ∧
    syncRwGuardDeref h
      { addr := a, portals := 1, anchorLive := true, lockPoisoned := false,
        readLocks := 1, writeLocked := false } = h a ∧
    rcRwPortalBorrow (rcRwAnchorPortal (rcRwAnchorNew a)) =
      .ok { addr := a, portals := 1, anchorLive := true, poisoned := false,
            sharedBorrows := 1, mutBorrow := false } ∧
    rcRwGuardDeref h
      { addr := a, portals := 1, anchorLive := true, poisoned := false,
        sharedBorrows := 1, mutBorrow := false } = h a := by
  refine ⟨rfl, rfl, rfl, rfl, rfl, rfl, rfl⟩

/-- C3 counterexample: a poisoned threaded mutable slot with one strong
portal outstanding — the anchor's retirement attempt fails, but it reports
`ANCHOR_STILL_IN_USE`, not `ANCHOR_POISONED`, so not every subsequent
operation on a poisoned slot reports "poisoned". -/
theorem c3_counterexample_retirement_reports_still_in_use :
    syncRwAnchorDrop ⟨0, 1, true, true, 0, false⟩ =
      .panicked ANCHOR_STILL_IN_USE ⟨0, 1, false, true, 0, false⟩ ∧
    ANCHOR_STILL_IN_USE ≠ ANCHOR_POISONED := by
  exact ⟨rfl, by decide⟩

/-- C3 (amended): once a mutable slot is poisoned, every subsequent read
acquisition, write acquisition, and retirement attempt made while no strong
handle remains fails loudly reporting `ANCHOR_POISONED`, for the threaded
(`RwPortal`/`RwAnchor`, `WPortal`/`WAnchor`) and cooperative
(`RwPortal`/`RwAnchor`) variants alike; a retirement attempt that instead
finds a strong handle outstanding fails loudly too, but reports
`ANCHOR_STILL_IN_USE`. -/
theorem c3_poisoned_slot_refuses_everything
    (s2 : SyncRwState) (s3 : SyncWState) (s5 : RcRwState) :
    (s2.lockPoisoned = true → s2.writeLocked = false →
      syncRwPortalRead s2 = .panicked ANCHOR_POISONED s2 ∧
      (s2.readLocks = 0 → syncRwPortalWrite s2 = .panicked ANCHOR_POISONED s2) ∧
      (s2.portals = 0 →
        syncRwAnchorDrop s2 = .panicked ANCHOR_POISONED { s2 with anchorLive := false }) ∧
      (1 ≤ s2.portals → s2.readLocks = 0 →
        syncRwAnchorDrop s2 = .panicked ANCHOR_STILL_IN_USE
          { s2 with anchorLive := false, lockPoisoned := true })) ∧
    (s3.lockPoisoned = true → s3.locked = false →
      syncWPortalLock s3 = .panicked ANCHOR_POISONED s3 ∧
      (s3.portals = 0 →
        syncWAnchorDrop s3 = .panicked ANCHOR_POISONED { s3 with anchorLive := false }) ∧
      (1 ≤ s3.portals →
        syncWAnchorDrop s3 = .panicked ANCHOR_STILL_IN_USE
          { s3 with anchorLive := false, lockPoisoned := true })) ∧
    (s5.poisoned = true → s5.mutBorrow = false →
      rcRwPortalBorrow s5 = .panicked ANCHOR_POISONED s5 ∧
      (s5.sharedBorrows = 0 → rcRwPortalBorrowMut s5 = .panicked ANCHOR_POISONED s5) ∧
      (s5.portals = 0 →
        rcRwAnchorDrop s5 = .panicked ANCHOR_POISONED { s5 with anchorLive := false }) ∧
      (1 ≤ s5.portals → s5.sharedBorrows = 0 →
        rcRwAnchorDrop s5 = .panicked ANCHOR_STILL_IN_USE
          { s5 with anchorLive := false, poisoned := true })) := by
  refine ⟨fun hpois hw => ⟨?_, fun hr => ?_, fun hz => ?_, fun hp hr => ?_⟩,
    fun hpois hl => ⟨?_, fun hz => ?_, fun hp => ?_⟩,
    fun hpois hm => ⟨?_, fun hs => ?_, fun hz => ?_, fun hp hs => ?_⟩⟩
  · simp [syncRwPortalRead, hpois, hw]
  · simp [syncRwPortalWrite, hpois, hw, hr]
  · simp [syncRwAnchorDrop, hpois, hz]
  · have hnz : ¬ s2.portals = 0 := by omega
    simp [syncRwAnchorDrop, hnz, hr, hw]
  · simp [syncWPortalLock, hpois, hl]
  · simp [syncWAnchorDrop, hpois, hz]
  · have hnz : ¬ s3.portals = 0 := by omega
    simp [syncWAnchorDrop, hnz, hl]
  · simp [rcRwPortalBorrow, hpois, hm]
  · simp [rcRwPortalBorrowMut, hpois, hm, hs]
  · simp [rcRwAnchorDrop, hpois, hz]
  · have hnz : ¬ s5.portals = 0 := by omega
    simp [rcRwAnchorDrop, hnz, hs, hm]

/-- Witness for the amended C3 at concrete poisoned states. -/
theorem c3_poisoned_slot_refuses_everything_witness :
    syncRwPortalRead ⟨0, 0, true, true, 0, false⟩ =
      .panicked ANCHOR_POISONED ⟨0, 0, true, true, 0, false⟩ ∧
    syncRwPortalWrite ⟨0, 0, true, true, 0, false⟩ =
      .panicked ANCHOR_POISONED ⟨0, 0, true, true, 0, false⟩ ∧
    syncRwAnchorDrop ⟨0, 0, true, true, 0, false⟩ =
      .panicked ANCHOR_POISONED ⟨0, 0, false, true, 0, false⟩ ∧
    syncWPortalLock ⟨0, 0, true, true, false⟩ =
      .panicked ANCHOR_POISONED ⟨0, 0, true, true, false⟩ ∧
    syncWAnchorDrop ⟨0, 0, true, true, false⟩ =
      .panicked ANCHOR_POISONED ⟨0, 0, false, true, false⟩ ∧
    rcRwPortalBorrow ⟨0, 0, true, true, 0, false⟩ =
      .panicked ANCHOR_POISONED ⟨0, 0, true, true, 0, false⟩ ∧
    rcRwPortalBorrowMut ⟨0, 0, true, true, 0, false⟩ =
      .panicked ANCHOR_POISONED ⟨0, 0, true, true, 0, false⟩ ∧
    rcRwAnchorDrop ⟨0, 0, true, true, 0, false⟩ =
      .panicked ANCHOR_POISONED ⟨0, 0, false, true, 0, false⟩ := by
  have h2 := (c3_poisoned_slot_refuses_everything
    ⟨0, 0, true, true, 0, false⟩ ⟨0, 0, true, true, false⟩
    ⟨0, 0, true, true, 0, false⟩).1 rfl rfl
  have h3 := (c3_poisoned_slot_refuses_everything
    ⟨0, 0, true, true, 0, false⟩ ⟨0, 0, true, true, false⟩
    ⟨0, 0, true, true, 0, false⟩).2.1 rfl rfl
  have h5 := (c3_poisoned_slot_refuses_everything
    ⟨0, 0, true, true, 0, false⟩ ⟨0, 0, true, true, false⟩
    ⟨0, 0, true, true, 0, false⟩).2.2 rfl rfl
  exact ⟨h2.1, h2.2.1 rfl, h2.2.2.1 rfl, h3.1, h3.2.1 rfl,
    h5.1, h5.2.1 rfl, h5.2.2.1 rfl⟩

/-- C4: For every weak portal variant (threaded plain/Rw/W and cooperative
plain/Rw), `try_upgrade` yields a strong portal exactly when the slot has not
been retired (a strong reference still exists), and the poison flag of the
mutable variants has no effect on whether the upgrade succeeds. -/
theorem c4_weak_upgrade_iff_not_retired
    (s1 : SyncROState) (s2 : SyncRwState) (s3 : SyncWState)
    (s4 : RcROState) (s5 : RcRwState) (b : Bool) :
    ((syncWeakTryUpgrade s1).isSome ↔ ¬ syncRORetired s1) ∧
    ((syncRwWeakTryUpgrade s2).isSome ↔ ¬ syncRwRetired s2) ∧
    (syncRwWeakTryUpgrade (syncRwSetPoison b s2)).isSome =
      (syncRwWeakTryUpgrade s2).isSome ∧
    ((syncWWeakTryUpgrade s3).isSome ↔ ¬ syncWRetired s3) ∧
    (syncWWeakTryUpgrade (syncWSetPoison b s3)).isSome =
      (syncWWeakTryUpgrade s3).isSome ∧
    ((rcWeakTryUpgrade s4).isSome ↔ ¬ rcRORetired s4) ∧
    ((rcRwWeakTryUpgrade s5).isSome ↔ ¬ rcRwRetired s5) ∧
    (rcRwWeakTryUpgrade (rcRwSetPoison b s5)).isSome =
      (rcRwWeakTryUpgrade s5).isSome := by
  refine ⟨?_, ?_, ?_, ?_, ?_, ?_, ?_, ?_⟩
  · by_cases h : syncROStrong s1 = 0 <;>
      simp [syncWeakTryUpgrade, syncRORetired, h]
  · by_cases h : syncRwStrong s2 = 0 <;>
      simp [syncRwWeakTryUpgrade, syncRwRetired, h]
  · have hs : syncRwStrong (syncRwSetPoison b s2) = syncRwStrong s2 := rfl
    by_cases h : syncRwStrong s2 = 0 <;>
      simp [syncRwWeakTryUpgrade, hs, h]
  · by_cases h : syncWStrong s3 = 0 <;>
      simp [syncWWeakTryUpgrade, syncWRetired, h]
  · have hs : syncWStrong (syncWSetPoison b s3) = syncWStrong s3 := rfl
    by_cases h : syncWStrong s3 = 0 <;>
      simp [syncWWeakTryUpgrade, hs, h]
  · by_cases h : rcROStrong s4 = 0 <;>
      simp [rcWeakTryUpgrade, rcRORetired, h]
  · by_cases h : rcRwStrong s5 = 0 <;>
      simp [rcRwWeakTryUpgrade, rcRwRetired, h]
  · have hs : rcRwStrong (rcRwSetPoison b s5) = rcRwStrong s5 := rfl
    by_cases h : rcRwStrong s5 = 0 <;>
      simp [rcRwWeakTryUpgrade, hs, h]

/-- Witness for C4: with the anchor live the upgrade succeeds (poisoned or
not); with the slot retired it fails. -/
theorem c4_weak_upgrade_iff_not_retired_witness :
    (syncWeakTryUpgrade ⟨0, 0, true⟩).isSome = true ∧
    (syncWeakTryUpgrade ⟨0, 0, false⟩).isSome = false ∧
    (syncRwWeakTryUpgrade ⟨0, 0, true, true, 0, false⟩).isSome =
      (syncRwWeakTryUpgrade ⟨0, 0, true, false, 0, false⟩).isSome := by
  have h1 := c4_weak_upgrade_iff_not_retired ⟨0, 0, true⟩
    ⟨0, 0, true, false, 0, false⟩ ⟨0, 0, true, false, false⟩
    ⟨0, 0, true⟩ ⟨0, 0, true, false, 0, false⟩ true
  have h2 := c4_weak_upgrade_iff_not_retired ⟨0, 0, false⟩
    ⟨0, 0, true, false, 0, false⟩ ⟨0, 0, true, false, false⟩
    ⟨0, 0, true⟩ ⟨0, 0, true, false, 0, false⟩ true
  refine ⟨?_, ?_, h1.2.2.1⟩
  · have := h1.1.mpr (by decide)
    simpa using this
  · have : ¬ (syncWeakTryUpgrade ⟨0, 0, false⟩).isSome := by
      intro hc
      exact absurd (h2.1.mp hc) (by simp [syncRORetired, syncROStrong])
    simpa using this

/-- C5 counterexample: a threaded mutable anchor over a poisoned slot with
zero strong portals outstanding — retirement does not return normally, it
panics `ANCHOR_POISONED`, so retirement with zero portals does not always
succeed. -/
theorem c5_counterexample_poisoned_retirement_fails :
    syncRwAnchorDrop ⟨0, 0, true, true, 0, false⟩ =
      .panicked ANCHOR_POISONED ⟨0, 0, false, true, 0, false⟩ ∧
    (syncRwAnchorDrop ⟨0, 0, true, true, 0, false⟩).isOk = false := by
  exact ⟨rfl, rfl⟩

/-- C5 (amended): retiring an anchor while zero strong portals are
outstanding succeeds — unconditionally for the read-only variants, and
provided the slot is not poisoned for the mutable variants — and leaves the
slot absent: no strong reference remains, every weak-portal upgrade
afterwards fails, and (in the old `lib.rs` design) a guard dereference after
retirement panics `ANCHOR_DROPPED` instead of reaching the value. -/
theorem c5_retirement_with_zero_portals {α : Type} (h : Nat → α)
    (s1 : SyncROState) (s2 : SyncRwState) (s3 : SyncWState)
    (s4 : RcROState) (s5 : RcRwState) (sl : LibROState) :
    (s1.portals = 0 → syncAnchorDrop s1 = .ok { s1 with anchorLive := false } ∧
      syncWeakTryUpgrade { s1 with anchorLive := false } = none) ∧
    (s2.portals = 0 → s2.lockPoisoned = false →
      syncRwAnchorDrop s2 = .ok { s2 with anchorLive := false } ∧
      syncRwWeakTryUpgrade { s2 with anchorLive := false } = none) ∧
    (s3.portals = 0 → s3.lockPoisoned = false →
      syncWAnchorDrop s3 = .ok { s3 with anchorLive := false } ∧
      syncWWeakTryUpgrade { s3 with anchorLive := false } = none) ∧
    (s4.portals = 0 → rcAnchorDrop s4 = .ok { s4 with anchorLive := false } ∧
      rcWeakTryUpgrade { s4 with anchorLive := false } = none) ∧
    (s5.portals = 0 → s5.poisoned = false →
      rcRwAnchorDrop s5 = .ok { s5 with anchorLive := false } ∧
      rcRwWeakTryUpgrade { s5 with anchorLive := false } = none) ∧
    (sl.readLocks = 0 → sl.present = true →
      libAnchorDrop sl = .ok { sl with present := false } ∧
      libGuardDeref h { sl with present := false } = .panicked ANCHOR_DROPPED) := by
  refine ⟨fun h1 => ?_, fun h2 hp2 => ?_, fun h3 hp3 => ?_,
    fun h4 => ?_, fun h5 hp5 => ?_, fun hl hpr => ?_⟩
  · exact ⟨by simp [syncAnchorDrop, h1],
      by simp [syncWeakTryUpgrade, syncROStrong, h1]⟩
  · exact ⟨by simp [syncRwAnchorDrop, h2, hp2],
      by simp [syncRwWeakTryUpgrade, syncRwStrong, h2]⟩
  · exact ⟨by simp [syncWAnchorDrop, h3, hp3],
      by simp [syncWWeakTryUpgrade, syncWStrong, h3]⟩
  · exact ⟨by simp [rcAnchorDrop, h4],
      by simp [rcWeakTryUpgrade, rcROStrong, h4]⟩
  · exact ⟨by simp [rcRwAnchorDrop, h5, hp5],
      by simp [rcRwWeakTryUpgrade, rcRwStrong, h5]⟩
  · exact ⟨by simp [libAnchorDrop, hl, hpr], by simp [libGuardDeref]⟩

/-- Witness for the amended C5 at fresh anchors: retirement returns normally
and afterwards upgrades fail and the old-design guard dereference panics. -/
theorem c5_retirement_with_zero_portals_witness :
    syncAnchorDrop (syncAnchorNew 7) = .ok ⟨7, 0, false⟩ ∧
    syncWeakTryUpgrade ⟨7, 0, false⟩ = none ∧
    syncRwAnchorDrop (syncRwAnchorNew 7) = .ok ⟨7, 0, false, false, 0, false⟩ ∧
    syncWAnchorDrop (syncWAnchorNew 7) = .ok ⟨7, 0, false, false, false⟩ ∧
    rcAnchorDrop (rcAnchorNew 7) = .ok ⟨7, 0, false⟩ ∧
    rcRwAnchorDrop (rcRwAnchorNew 7) = .ok ⟨7, 0, false, false, 0, false⟩ ∧
    libAnchorDrop (libAnchorNew 7) = .ok ⟨7, false, 0⟩ ∧
    libGuardDeref (fun n => n + 1) ⟨7, false, 0⟩ = .panicked ANCHOR_DROPPED := by
  have h := c5_retirement_with_zero_portals (fun n => n + 1)
    (syncAnchorNew 7) (syncRwAnchorNew 7) (syncWAnchorNew 7)
    (rcAnchorNew 7) (rcRwAnchorNew 7) (libAnchorNew 7)
  exact ⟨(h.1 rfl).1, (h.1 rfl).2, (h.2.1 rfl rfl).1, (h.2.2.1 rfl rfl).1,
    (h.2.2.2.1 rfl).1, (h.2.2.2.2.1 rfl rfl).1,
    (h.2.2.2.2.2 rfl rfl).1, (h.2.2.2.2.2 rfl rfl).2⟩

/-- C6 counterexample: the cooperative exclusive anchor (`rc::RwAnchor`)
observing an outstanding strong handle but no active borrow does not block —
it panics `ANCHOR_STILL_IN_USE` — while the cooperative shared (non-exclusive)
anchor (`rc::Anchor`) does block permanently on an outstanding strong handle.
So the permanent-block fallback is not tied to the exclusive anchor observing
an outstanding strong handle. -/
theorem c6_counterexample_fallback_not_exclusive :
    rcRwAnchorDrop ⟨0, 1, true, false, 0, false⟩ =
      .panicked ANCHOR_STILL_IN_USE ⟨0, 1, false, true, 0, false⟩ ∧
    rcRwAnchorDrop ⟨0, 1, true, false, 0, false⟩ ≠ .deadlock ∧
    rcAnchorDrop ⟨0, 1, true⟩ = .deadlock := by
  refine ⟨rfl, ?_, rfl⟩
  intro hc
  simp [rcRwAnchorDrop] at hc

/-- C6 (amended): the permanent-block fallback at retirement fires exactly
when a cooperative anchor observes a conflict whose single-threaded
confinement cannot be established at that moment: for the cooperative shared
`rc::Anchor` — whose portals dereference without any runtime tracking —
whenever at least one strong portal exists; for the cooperative exclusive
`rc::RwAnchor`, exactly when a strong portal exists and a borrow is live at
retirement.  A cooperative `rc::RwAnchor` observing strong portals but no
live borrow fails loudly (`ANCHOR_STILL_IN_USE`) instead, and the threaded
anchors never take the permanent-block fallback. -/
theorem c6_permanent_block_characterisation
    (s1 : SyncROState) (s2 : SyncRwState) (s3 : SyncWState)
    (s4 : RcROState) (s5 : RcRwState) :
    (rcAnchorDrop s4 = .deadlock ↔ 1 ≤ s4.portals) ∧
    (rcRwAnchorDrop s5 = .deadlock ↔
      (1 ≤ s5.portals ∧ (1 ≤ s5.sharedBorrows ∨ s5.mutBorrow = true))) ∧
    (1 ≤ s5.portals → s5.sharedBorrows = 0 → s5.mutBorrow = false →
      rcRwAnchorDrop s5 = .panicked ANCHOR_STILL_IN_USE
        { s5 with anchorLive := false, poisoned := true }) ∧
    syncAnchorDrop s1 ≠ .deadlock ∧
    syncRwAnchorDrop s2 ≠ .deadlock ∧
    syncWAnchorDrop s3 ≠ .deadlock := by
  refine ⟨?_, ?_, fun hp hs hm => ?_, ?_, ?_, ?_⟩
  · by_cases h : s4.portals = 0
    · simp [rcAnchorDrop, h]
    · simp only [rcAnchorDrop, h, if_false]
      simp only [true_iff]
      omega
  · by_cases hp : s5.portals = 0
    · simp only [rcRwAnchorDrop, hp, if_true]
      have : ¬ 1 ≤ s5.portals := by omega
      by_cases hq : s5.poisoned <;> simp [hq, this]
    · simp only [rcRwAnchorDrop, hp, if_false]
      by_cases hb : s5.sharedBorrows ≠ 0 ∨ s5.mutBorrow
      · simp only [hb, if_true]
        constructor
        · intro _
          refine ⟨by omega, ?_⟩
          rcases hb with hb | hb
          · exact Or.inl (by omega)
          · exact Or.inr hb
        · intro _; trivial
      · simp only [hb, if_false]
        push_neg at hb
        constructor
        · intro hc; cases hc
        · rintro ⟨-, hc | hc⟩
          · omega
          · exact absurd hc (by simpa using hb.2)
  · have hnz : ¬ s5.portals = 0 := by omega
    simp [rcRwAnchorDrop, hnz, hs, hm]
  · by_cases h : s1.portals = 0 <;> simp [syncAnchorDrop, h]
  · by_cases hp : s2.portals = 0
    · simp only [syncRwAnchorDrop, hp, if_true]
      by_cases hq : s2.lockPoisoned <;> simp [hq]
    · simp only [syncRwAnchorDrop, hp, if_false]
      by_cases hg : s2.readLocks ≠ 0 ∨ s2.writeLocked <;> simp [hg]
  · by_cases hp : s3.portals = 0
    · simp only [syncWAnchorDrop, hp, if_true]
      by_cases hq : s3.lockPoisoned <;> simp [hq]
    · simp only [syncWAnchorDrop, hp, if_false]
      by_cases hg : s3.locked <;> simp [hg]

/-- Witness for the amended C6: with one portal the cooperative shared anchor
deadlocks; the cooperative exclusive anchor deadlocks with a live borrow and
panics without one. -/
theorem c6_permanent_block_characterisation_witness :
    rcAnchorDrop ⟨0, 1, true⟩ = .deadlock ∧
    rcRwAnchorDrop ⟨0, 1, true, false, 1, false⟩ = .deadlock ∧
    rcRwAnchorDrop ⟨0, 1, true, false, 0, false⟩ =
      .panicked ANCHOR_STILL_IN_USE ⟨0, 1, false, true, 0, false⟩ ∧
    syncAnchorDrop ⟨0, 1, true⟩ ≠ .deadlock := by
  have h1 := c6_permanent_block_characterisation ⟨0, 1, true⟩
    ⟨0, 1, true, false, 0, false⟩ ⟨0, 1, true, false, false⟩
    ⟨0, 1, true⟩ ⟨0, 1, true, false, 1, false⟩
  have h2 := c6_permanent_block_characterisation ⟨0, 1, true⟩
    ⟨0, 1, true, false, 0, false⟩ ⟨0, 1, true, false, false⟩
    ⟨0, 1, true⟩ ⟨0, 1, true, false, 0, false⟩
  exact ⟨h1.1.mpr (by decide), h1.2.1.mpr (by simp),
    h2.2.2.1 (by decide) rfl rfl, h1.2.2.2.1⟩

/-- C7: For every write/exclusive guard on a mutable slot (threaded
`RwPortal` write guard, `WPortal` mutex guard, cooperative `RwPortal`
`borrow_mut` guard), a release that happens while the holder's code is
unwinding from a failure marks the slot poisoned, and a normal release
leaves the poison flag exactly as it was. -/
theorem c7_abnormal_release_poisons
    (s2 : SyncRwState) (s3 : SyncWState) (s5 : RcRwState) :
    (syncRwReleaseWrite true s2).lockPoisoned = true ∧
    (syncRwReleaseWrite false s2).lockPoisoned = s2.lockPoisoned ∧
    (syncRwReleaseWrite false s2).writeLocked = false ∧
    (syncWReleaseLock true s3).lockPoisoned = true ∧
    (syncWReleaseLock false s3).lockPoisoned = s3.lockPoisoned ∧
    (syncWReleaseLock false s3).locked = false ∧
    (rcRwReleaseBorrowMut true s5).poisoned = true ∧
    (rcRwReleaseBorrowMut false s5).poisoned = s5.poisoned ∧
    (rcRwReleaseBorrowMut false s5).mutBorrow = false := by
  refine ⟨?_, ?_, rfl, ?_, ?_, rfl, ?_, ?_, rfl⟩ <;>
    simp [syncRwReleaseWrite, syncWReleaseLock, rcRwReleaseBorrowMut]

/-- C8: For the threaded mutable anchors (`sync::RwAnchor`, `sync::WAnchor`),
a retirement attempt that finds another strong handle alive (and no guard
held, so the destructor's lock acquisition does not wait) panics
`ANCHOR_STILL_IN_USE` and additionally leaves the slot poisoned, so that
every surviving handle's subsequent read or write acquisition panics
`ANCHOR_POISONED`. -/
theorem c8_threaded_failed_retirement_poisons
    (s2 : SyncRwState) (s3 : SyncWState) :
    (1 ≤ s2.portals → s2.readLocks = 0 → s2.writeLocked = false →
      syncRwAnchorDrop s2 = .panicked ANCHOR_STILL_IN_USE
        { s2 with anchorLive := false, lockPoisoned := true } ∧
      ({ s2 with anchorLive := false, lockPoisoned := true } : SyncRwState).lockPoisoned
        = true ∧
      syncRwPortalRead { s2 with anchorLive := false, lockPoisoned := true } =
        .panicked ANCHOR_POISONED { s2 with anchorLive := false, lockPoisoned := true } ∧
      syncRwPortalWrite { s2 with anchorLive := false, lockPoisoned := true } =
        .panicked ANCHOR_POISONED { s2 with anchorLive := false, lockPoisoned := true }) ∧
    (1 ≤ s3.portals → s3.locked = false →
      syncWAnchorDrop s3 = .panicked ANCHOR_STILL_IN_USE
        { s3 with anchorLive := false, lockPoisoned := true } ∧
      syncWPortalLock { s3 with anchorLive := false, lockPoisoned := true } =
        .panicked ANCHOR_POISONED { s3 with anchorLive := false, lockPoisoned := true }) := by
  refine ⟨fun hp hr hw => ?_, fun hp hl => ?_⟩
  · have hnz : ¬ s2.portals = 0 := by omega
    exact ⟨by simp [syncRwAnchorDrop, hnz, hr, hw], rfl,
      by simp [syncRwPortalRead, hw],
      by simp [syncRwPortalWrite, hw, hr]⟩
  · have hnz : ¬ s3.portals = 0 := by omega
    exact ⟨by simp [syncWAnchorDrop, hnz, hl],
      by simp [syncWPortalLock, hl]⟩

/-- Witness for C8: one outstanding portal, no guard; retirement panics still
in use and the surviving portal's acquisitions then panic poisoned. -/
theorem c8_threaded_failed_retirement_poisons_witness :
    syncRwAnchorDrop ⟨0, 1, true, false, 0, false⟩ =
      .panicked ANCHOR_STILL_IN_USE ⟨0, 1, false, true, 0, false⟩ ∧
    syncRwPortalRead ⟨0, 1, false, true, 0, false⟩ =
      .panicked ANCHOR_POISONED ⟨0, 1, false, true, 0, false⟩ ∧
    syncRwPortalWrite ⟨0, 1, false, true, 0, false⟩ =
      .panicked ANCHOR_POISONED ⟨0, 1, false, true, 0, false⟩ ∧
    syncWAnchorDrop ⟨0, 1, true, false, false⟩ =
      .panicked ANCHOR_STILL_IN_USE ⟨0, 1, false, true, false⟩ ∧
    syncWPortalLock ⟨0, 1, false, true, false⟩ =
      .panicked ANCHOR_POISONED ⟨0, 1, false, true, false⟩ := by
  have h := c8_threaded_failed_retirement_poisons
    ⟨0, 1, true, false, 0, false⟩ ⟨0, 1, true, false, false⟩
  have h2 := h.1 (by decide) rfl rfl
  have h3 := h.2 (by decide) rfl
  exact ⟨h2.1, h2.2.2.1, h2.2.2.2, h3.1, h3.2⟩

/-- C9: For every weak-portal variant, `upgrade()` returns exactly the strong
portal `try_upgrade()` would produce whenever `try_upgrade()` produces one,
and panics `ANCHOR_DROPPED` exactly when `try_upgrade()` returns nothing. -/
theorem c9_upgrade_agrees_with_try_upgrade
    (s1 t1 : SyncROState) (s2 t2 : SyncRwState) (s3 t3 : SyncWState)
    (s4 t4 : RcROState) (s5 t5 : RcRwState) :
    ((syncWeakTryUpgrade s1 = some t1 → syncWeakUpgrade s1 = .ok t1) ∧
      (syncWeakTryUpgrade s1 = none ↔
        syncWeakUpgrade s1 = .panicked ANCHOR_DROPPED s1)) ∧
    ((syncRwWeakTryUpgrade s2 = some t2 → syncRwWeakUpgrade s2 = .ok t2) ∧
      (syncRwWeakTryUpgrade s2 = none ↔
        syncRwWeakUpgrade s2 = .panicked ANCHOR_DROPPED s2)) ∧
    ((syncWWeakTryUpgrade s3 = some t3 → syncWWeakUpgrade s3 = .ok t3) ∧
      (syncWWeakTryUpgrade s3 = none ↔
        syncWWeakUpgrade s3 = .panicked ANCHOR_DROPPED s3)) ∧
    ((rcWeakTryUpgrade s4 = some t4 → rcWeakUpgrade s4 = .ok t4) ∧
      (rcWeakTryUpgrade s4 = none ↔
        rcWeakUpgrade s4 = .panicked ANCHOR_DROPPED s4)) ∧
    ((rcRwWeakTryUpgrade s5 = some t5 → rcRwWeakUpgrade s5 = .ok t5) ∧
      (rcRwWeakTryUpgrade s5 = none ↔
        rcRwWeakUpgrade s5 = .panicked ANCHOR_DROPPED s5)) := by
  refine ⟨⟨fun h => ?_, ?_⟩, ⟨fun h => ?_, ?_⟩, ⟨fun h => ?_, ?_⟩,
    ⟨fun h => ?_, ?_⟩, ⟨fun h => ?_, ?_⟩⟩
  · simp only [syncWeakUpgrade, h]
  · rcases ht : syncWeakTryUpgrade s1 with _ | t <;>
      simp [syncWeakUpgrade, ht]
  · simp only [syncRwWeakUpgrade, h]
  · rcases ht : syncRwWeakTryUpgrade s2 with _ | t <;>
      simp [syncRwWeakUpgrade, ht]
  · simp only [syncWWeakUpgrade, h]
  · rcases ht : syncWWeakTryUpgrade s3 with _ | t <;>
      simp [syncWWeakUpgrade, ht]
  · simp only [rcWeakUpgrade, h]
  · rcases ht : rcWeakTryUpgrade s4 with _ | t <;>
      simp [rcWeakUpgrade, ht]
  · simp only [rcRwWeakUpgrade, h]
  · rcases ht : rcRwWeakTryUpgrade s5 with _ | t <;>
      simp [rcRwWeakUpgrade, ht]

/-- Witness for C9: with the anchor live, `upgrade` returns the portal
`try_upgrade` produces; on a retired slot both fail (`try_upgrade` with
`none`, `upgrade` with the `ANCHOR_DROPPED` panic). -/
theorem c9_upgrade_agrees_with_try_upgrade_witness :
    syncWeakUpgrade ⟨3, 0, true⟩ = .ok ⟨3, 1, true⟩ ∧
    syncWeakUpgrade ⟨3, 0, false⟩ = .panicked ANCHOR_DROPPED ⟨3, 0, false⟩ ∧
    rcRwWeakUpgrade ⟨3, 0, false, true, 0, false⟩ =
      .panicked ANCHOR_DROPPED ⟨3, 0, false, true, 0, false⟩ := by
  have h1 := c9_upgrade_agrees_with_try_upgrade
    ⟨3, 0, true⟩ ⟨3, 1, true⟩ ⟨3, 0, true, false, 0, false⟩ ⟨3, 1, true, false, 0, false⟩
    ⟨3, 0, true, false, false⟩ ⟨3, 1, true, false, false⟩ ⟨3, 0, true⟩ ⟨3, 1, true⟩
    ⟨3, 0, false, true, 0, false⟩ ⟨3, 1, false, true, 0, false⟩
  have h2 := c9_upgrade_agrees_with_try_upgrade
    ⟨3, 0, false⟩ ⟨3, 1, false⟩ ⟨3, 0, true, false, 0, false⟩ ⟨3, 1, true, false, 0, false⟩
    ⟨3, 0, true, false, false⟩ ⟨3, 1, true, false, false⟩ ⟨3, 0, true⟩ ⟨3, 1, true⟩
    ⟨3, 0, false, true, 0, false⟩ ⟨3, 1, false, true, 0, false⟩
  exact ⟨h1.1.1 (by decide), h2.1.2.mp (by decide), h1.2.2.2.2.2.mp (by decide)⟩

/-- C10: When the cooperative `rc::RwAnchor`'s retirement finds a strong
`rc::RwPortal` still outstanding but no live borrow, it sets the slot's
`poisoned` flag and then panics `ANCHOR_STILL_IN_USE`, so every later
`borrow` or `borrow_mut` through a surviving portal panics
`ANCHOR_POISONED`. -/
theorem c10_rc_failed_retirement_poisons (s5 : RcRwState) :
    1 ≤ s5.portals → s5.sharedBorrows = 0 → s5.mutBorrow = false →
    rcRwAnchorDrop s5 = .panicked ANCHOR_STILL_IN_USE
      { s5 with anchorLive := false, poisoned := true } ∧
    ({ s5 with anchorLive := false, poisoned := true } : RcRwState).poisoned = true ∧
    rcRwPortalBorrow { s5 with anchorLive := false, poisoned := true } =
      .panicked ANCHOR_POISONED { s5 with anchorLive := false, poisoned := true } ∧
    rcRwPortalBorrowMut { s5 with anchorLive := false, poisoned := true } =
      .panicked ANCHOR_POISONED { s5 with anchorLive := false, poisoned := true } := by
  intro hp hs hm
  have hnz : ¬ s5.portals = 0 := by omega
  exact ⟨by simp [rcRwAnchorDrop, hnz, hs, hm], rfl,
    by simp [rcRwPortalBorrow, hm],
    by simp [rcRwPortalBorrowMut, hm, hs]⟩

/-- Witness for C10: one outstanding cooperative portal, no live borrow. -/
theorem c10_rc_failed_retirement_poisons_witness :
    rcRwAnchorDrop ⟨0, 1, true, false, 0, false⟩ =
      .panicked ANCHOR_STILL_IN_USE ⟨0, 1, false, true, 0, false⟩ ∧
    rcRwPortalBorrow ⟨0, 1, false, true, 0, false⟩ =
      .panicked ANCHOR_POISONED ⟨0, 1, false, true, 0, false⟩ ∧
    rcRwPortalBorrowMut ⟨0, 1, false, true, 0, false⟩ =
      .panicked ANCHOR_POISONED ⟨0, 1, false, true, 0, false⟩ := by
  have h := c10_rc_failed_retirement_poisons ⟨0, 1, true, false, 0, false⟩
    (by decide) rfl rfl
  exact ⟨h.1, h.2.2.1, h.2.2.2⟩
